import Mathlib

/-!
Verification of the authentication / session-security core of the
gs-guardmonitoring repository (Google Apps Script / JavaScript).

The source is shallowly embedded: the Users sheet is a `List UserRow`
(header row excluded, positional columns become named fields), the
process-wide `CacheService` cache is a `Cache` value threaded through the
token functions, timestamps are milliseconds as `Nat`, and every stateful
function returns its result together with the updated state.  Platform
APIs that are not part of the repository (`Utilities.computeDigest`,
`Utilities.base64Encode`, `Utilities.getUuid`, `JSON.stringify/parse`,
date formatting) are modelled from the spec, each with a doc comment
saying so.
-/

/-- `CONFIG.VALIDATION.MIN_PASSWORD_LENGTH` (src/Config.js). -/
def MIN_PASSWORD_LENGTH : Nat := 8

/-- `CONFIG.VALIDATION.MAX_PASSWORD_LENGTH` (src/Config.js). -/
def MAX_PASSWORD_LENGTH : Nat := 128

/-- `CONFIG.VALIDATION.MAX_LOGIN_ATTEMPTS` (src/Config.js). -/
def MAX_LOGIN_ATTEMPTS : Nat := 5

/-- `CONFIG.VALIDATION.LOCKOUT_DURATION_MINUTES` (src/Config.js). -/
def LOCKOUT_DURATION_MINUTES : Nat := 15

/-- `CONFIG.VALIDATION.PASSWORD_HISTORY_COUNT` (src/Config.js). -/
def PASSWORD_HISTORY_COUNT : Nat := 5

/-- `CONFIG.VALIDATION.SESSION_TIMEOUT_MINUTES` (src/Config.js). -/
def SESSION_TIMEOUT_MINUTES : Nat := 360

/-- Modelled from the spec: `Utilities.computeDigest(SHA_256, password)` is a
platform API that is not part of the repository.  The spec (§4.1) requires a
"deterministic one-way cryptographic hash" whose repeated application to equal
inputs agrees and which (for the stated verify-properties) is collision-free
on the inputs considered; it is therefore modelled as an ideal injective
digest.  Like the platform API it returns the digest as JavaScript *signed*
bytes, here four signed bytes in `[-128, 127]` per character of the input. -/
def computeDigest (password : String) : List Int :=
  password.data.flatMap (fun c =>
    [((c.toNat / 16777216 % 256 : Nat) : Int) - 128,
     ((c.toNat / 65536 % 256 : Nat) : Int) - 128,
     ((c.toNat / 256 % 256 : Nat) : Int) - 128,
     ((c.toNat % 256 : Nat) : Int) - 128])

/-- The byte-normalisation loop of `hashPassword` (src/Security.js lines
126-133): a signed byte below 0 gets 256 added before `String.fromCharCode`,
a non-negative byte is used as is.  Returns the char code appended to the
intermediate binary string. -/
def byteToCharCode (b : Int) : Nat :=
  if b < 0 then (b + 256).toNat else b.toNat

/-- The sixteen-character alphabet used by the modelled transport-safe
encoding. -/
def b64chars : List Char := "ABCDEFGHIJKLMNOP".data

/-- Modelled from the spec: `Utilities.base64Encode` is a platform API that is
not part of the repository.  The spec (§4.1) requires only a deterministic,
transport-safe text encoding of the binary digest string; it is modelled as an
injective nibble encoding of the char codes (two alphabet characters per
byte).  The argument is the char-code list of the intermediate binary string
built by `hashPassword`. -/
def base64Encode (charCodes : List Nat) : String :=
  ⟨charCodes.flatMap (fun b => [b64chars.getD (b / 16) 'A', b64chars.getD (b % 16) 'A'])⟩

/-- `hashPassword` (src/Security.js lines 123-135): digest the password,
normalise each signed byte to a char code, and base64-encode the resulting
binary string. -/
def hashPassword (password : String) : String :=
  base64Encode ((computeDigest password).map byteToCharCode)

/-- `verifyPassword` (src/Security.js lines 143-146): recompute the hash and
compare for equality. -/
def verifyPassword (password hash : String) : Bool :=
  hashPassword password == hash

/-- A value `(n : Int) - 128` with `n < 256` is a signed byte. -/
theorem signed_byte_range {n : Nat} (h : n < 256) :
    -128 ≤ ((n : Int) - 128) ∧ ((n : Int) - 128) < 128 := by omega

/-- Every signed byte produced by `computeDigest` lies in `[-128, 127]`. -/
theorem computeDigest_range {p : String} {b : Int} (hb : b ∈ computeDigest p) :
    -128 ≤ b ∧ b < 128 := by
  simp only [computeDigest, List.mem_flatMap] at hb
  obtain ⟨c, -, hc⟩ := hb
  simp only [List.mem_cons, List.not_mem_nil, or_false] at hc
  rcases hc with h | h | h | h <;>
    exact h ▸ signed_byte_range (Nat.mod_lt _ (by omega))

/-- A character's code point is below `2 ^ 32` (it is stored in a `UInt32`). -/
theorem char_toNat_lt (c : Char) : c.toNat < 4294967296 :=
  c.val.toNat_lt

/-- `computeDigest` is injective: the four signed bytes of each character
reconstruct its code point. -/
theorem computeDigest_inj {p1 p2 : String} (h : computeDigest p1 = computeDigest p2) :
    p1 = p2 := by
  obtain ⟨l1⟩ := p1
  obtain ⟨l2⟩ := p2
  simp only [computeDigest] at h
  suffices hs : l1 = l2 by rw [hs]
  induction l1 generalizing l2 with
  | nil => cases l2 with
    | nil => rfl
    | cons c t => simp at h
  | cons c1 t1 ih =>
    cases l2 with
    | nil => simp at h
    | cons c2 t2 =>
      simp only [List.flatMap_cons, List.cons_append, List.nil_append,
        List.cons.injEq] at h
      obtain ⟨e1, e2, e3, e4, erest⟩ := h
      have b1 := char_toNat_lt c1
      have b2 := char_toNat_lt c2
      have hn : c1.toNat = c2.toNat := by omega
      have hc : c1 = c2 := by
        have := congrArg Char.ofNat hn
        rwa [Char.ofNat_toNat, Char.ofNat_toNat] at this
      subst hc
      exact congrArg (c1 :: ·) (ih t2 erest)

/-- `byteToCharCode` is injective on the signed-byte range. -/
theorem byteToCharCode_inj {b1 b2 : Int}
    (h1 : -128 ≤ b1 ∧ b1 < 128) (h2 : -128 ≤ b2 ∧ b2 < 128)
    (h : byteToCharCode b1 = byteToCharCode b2) : b1 = b2 := by
  simp only [byteToCharCode] at h
  split at h <;> split at h <;> omega

/-- `byteToCharCode` maps the signed-byte range into char codes below 256. -/
theorem byteToCharCode_lt {b : Int} (h : -128 ≤ b ∧ b < 128) :
    byteToCharCode b < 256 := by
  simp only [byteToCharCode]
  split <;> omega

/-- The modelled alphabet encoding of a nibble is injective. -/
theorem b64digit_inj : ∀ m < 16, ∀ n < 16,
    (b64chars.getD m 'A' = b64chars.getD n 'A' → m = n) := by decide

/-- The modelled `base64Encode` is injective on lists of char codes below
256. -/
theorem base64Encode_inj : ∀ {l1 l2 : List Nat},
    (∀ b ∈ l1, b < 256) → (∀ b ∈ l2, b < 256) →
    base64Encode l1 = base64Encode l2 → l1 = l2 := by
  intro l1
  induction l1 with
  | nil =>
    intro l2 _ _ h
    cases l2 with
    | nil => rfl
    | cons b t =>
      have := congrArg String.data h
      simp [base64Encode] at this
  | cons b1 t1 ih =>
    intro l2 hr1 hr2 h
    cases l2 with
    | nil =>
      have := congrArg String.data h
      simp [base64Encode] at this
    | cons b2 t2 =>
      have hd := congrArg String.data h
      simp only [base64Encode, List.flatMap_cons, List.cons_append,
        List.nil_append, List.cons.injEq] at hd
      obtain ⟨e1, e2, erest⟩ := hd
      have hb1 : b1 < 256 := hr1 b1 (by simp)
      have hb2 : b2 < 256 := hr2 b2 (by simp)
      have q1 : b1 / 16 = b2 / 16 :=
        b64digit_inj _ (by omega) _ (by omega) e1
      have q2 : b1 % 16 = b2 % 16 :=
        b64digit_inj _ (Nat.mod_lt _ (by omega)) _ (Nat.mod_lt _ (by omega)) e2
      have hb : b1 = b2 := by omega
      subst hb
      have ht : t1 = t2 := by
        apply ih (fun b hb => hr1 b (by simp [hb])) (fun b hb => hr2 b (by simp [hb]))
        exact congrArg String.mk erest
      rw [ht]

/-- Mapping `byteToCharCode` over lists of signed bytes is injective. -/
theorem map_byteToCharCode_inj : ∀ {l1 l2 : List Int},
    (∀ b ∈ l1, -128 ≤ b ∧ b < 128) → (∀ b ∈ l2, -128 ≤ b ∧ b < 128) →
    l1.map byteToCharCode = l2.map byteToCharCode → l1 = l2 := by
  intro l1
  induction l1 with
  | nil =>
    intro l2 _ _ h
    cases l2 with
    | nil => rfl
    | cons b t => simp at h
  | cons b1 t1 ih =>
    intro l2 hr1 hr2 h
    cases l2 with
    | nil => simp at h
    | cons b2 t2 =>
      simp only [List.map_cons, List.cons.injEq] at h
      obtain ⟨e1, erest⟩ := h
      have hb : b1 = b2 :=
        byteToCharCode_inj (hr1 b1 (by simp)) (hr2 b2 (by simp)) e1
      subst hb
      have ht : t1 = t2 :=
        ih (fun b hb => hr1 b (by simp [hb])) (fun b hb => hr2 b (by simp [hb])) erest
      rw [ht]

/-- `hashPassword` is injective (the modelled digest is ideal /
collision-free). -/
theorem hashPassword_inj {p1 p2 : String} (h : hashPassword p1 = hashPassword p2) :
    p1 = p2 := by
  apply computeDigest_inj
  apply map_byteToCharCode_inj
    (fun b hb => computeDigest_range hb) (fun b hb => computeDigest_range hb)
  apply base64Encode_inj
    (fun b hb => by
      obtain ⟨x, hx, hbx⟩ := List.mem_map.mp hb
      exact hbx ▸ byteToCharCode_lt (computeDigest_range hx))
    (fun b hb => by
      obtain ⟨x, hx, hbx⟩ := List.mem_map.mp hb
      exact hbx ▸ byteToCharCode_lt (computeDigest_range hx))
  exact h

/-- C7: `hashPassword` is deterministic (equal inputs give equal digests on
every call), `verifyPassword p (hashPassword p)` is `true` for every `p`, and
`verifyPassword p2 (hashPassword p1)` is `false` whenever `p1 ≠ p2`. -/
theorem hashPassword_deterministic_and_verify_correct :
    (∀ p : String, hashPassword p = hashPassword p) ∧
    (∀ p : String, verifyPassword p (hashPassword p) = true) ∧
    (∀ p1 p2 : String, p1 ≠ p2 → verifyPassword p2 (hashPassword p1) = false) := by
  refine ⟨fun p => rfl, fun p => by simp [verifyPassword], fun p1 p2 hne => ?_⟩
  simp only [verifyPassword, beq_eq_false_iff_ne, ne_eq]
  intro h
  exact hne (hashPassword_inj h.symm)

/-- Concrete instance of the verify-properties: the two passwords differ, so
verification of one against the other's hash fails. -/
theorem hashPassword_verify_witness :
    ("Secret1A" : String) ≠ "Wrong1Aa" ∧
    verifyPassword "Wrong1Aa" (hashPassword "Secret1A") = false :=
  ⟨by decide,
   hashPassword_deterministic_and_verify_correct.2.2 "Secret1A" "Wrong1Aa" (by decide)⟩

/-- One data row of the Users sheet (header row excluded; positional columns
of src/Dashboard.js `authenticateUser` and src/Security.js become named
fields).  `failedAttempts` models column 8 with the source's `row[7] || 0`
empty-cell default applied; `lastFailedAt` / `lockedUntil` model columns 9/10
where `none` is the empty cell written by `setValue('')`; `passwordHistory`
models the JSON-array text of column 11 as the decoded list (empty cell and
unparsable text both read as `[]` in the source); `forcePasswordChange` keeps
the raw cell text of column 12 (the source tests it with
`row[11] === 'TRUE'` and writes the text `'FALSE'`). -/
structure UserRow where
  userId : String
  username : String
  passwordHash : String
  fullName : String
  role : String
  status : String
  createdDate : String
  failedAttempts : Nat
  lastFailedAt : Option Nat
  lockedUntil : Option Nat
  passwordHistory : List String
  forcePasswordChange : String
deriving DecidableEq, Repr

/-- The session record `JSON.stringify`-ed into the cache by
`generateSessionToken` (src/Security.js lines 192-195).  Modelled from the
spec: `JSON.stringify` / `JSON.parse` are platform APIs; their roundtrip on
this two-field record is the identity, so the cache stores the record
itself. -/
structure SessionData where
  username : String
  created : String
deriving DecidableEq, Repr

/-- A value stored in the user cache: CSRF tokens are stored as plain strings,
sessions as the serialised session record. -/
inductive CacheVal where
  | str (s : String)
  | session (username created : String)
deriving DecidableEq, Repr

/-- The process-wide `CacheService.getUserCache()` store.  `entries` holds
`(key, value, ttlSeconds)` triples, newest first (`put` prepends, `get`
returns the first match, so a later `put` on the same key overwrites).
`failing` models a storage-layer error: when set, every cache operation
throws, which the source catches inside the token functions. -/
structure Cache where
  failing : Bool
  entries : List (String × CacheVal × Nat)
deriving DecidableEq, Repr

/-- `cache.put(key, value, ttl)`. -/
def Cache.put (c : Cache) (key : String) (v : CacheVal) (ttl : Nat) : Cache :=
  { c with entries := (key, v, ttl) :: c.entries }

/-- `cache.get(key)`: first (most recent) entry with the key. -/
def Cache.get (c : Cache) (key : String) : Option CacheVal :=
  (c.entries.find? (fun e => e.1 = key)).map (fun e => e.2.1)

/-- `generateSessionToken` (src/Security.js lines 188-202).  The platform
`Utilities.getUuid()` is modelled by the `uuid` argument and
`new Date().toISOString()` by `nowIso`; both are not repository code.  On any
storage error the source catches and returns the empty string with the store
untouched. -/
def generateSessionToken (uuid nowIso username : String) (c : Cache) : String × Cache :=
  if c.failing then ("", c)
  else (uuid, c.put ("session_" ++ uuid) (.session username nowIso)
    (SESSION_TIMEOUT_MINUTES * 60))

/-- `generateCsrfToken` (src/Security.js lines 153-163): stores the fresh
token under `'csrf_token_' + username` with a 3600-second TTL; on any storage
error it catches and returns the empty string. -/
def generateCsrfToken (uuid username : String) (c : Cache) : String × Cache :=
  if c.failing then ("", c)
  else (uuid, c.put ("csrf_token_" ++ username) (.str uuid) 3600)

/-- `validateSessionToken` (src/Security.js lines 209-220): a falsy token
gives `null`; otherwise look the session up in the cache, `null` when absent;
a storage error is caught to `null`.  (A raw-string cache hit would fail
`JSON.parse` and is likewise caught to `null`.) -/
def validateSessionToken (token : String) (c : Cache) : Option SessionData :=
  if token = "" then none
  else if c.failing then none
  else match c.get ("session_" ++ token) with
    | some (.session u cr) => some ⟨u, cr⟩
    | _ => none

/-- `validatePassword` (src/Security.js lines 69-93), returning `some error`
when invalid and `none` when valid.  `/[A-Z]/`, `/[a-z]/`, `/[0-9]/` are the
ASCII classes of `Char.isUpper`, `Char.isLower`, `Char.isDigit`; the source's
`!password` branch coincides with the minimum-length branch for the empty
string. -/
def validatePassword (password : String) : Option String :=
  if password.length < MIN_PASSWORD_LENGTH then
    some ("Password must be at least " ++ toString MIN_PASSWORD_LENGTH ++ " characters")
  else if password.length > MAX_PASSWORD_LENGTH then
    some "Password too long"
  else if ¬(password.data.any Char.isUpper ∧ password.data.any Char.isLower ∧
      password.data.any Char.isDigit) then
    some "Password must contain uppercase, lowercase, and number"
  else none

/-- The user-facing result of `authenticateUser` (src/Dashboard.js):
`{success:false, message}` or `{success:true, message, user, sessionToken,
csrfToken, forcePasswordChange}` with `user = {username, fullName, role}`. -/
inductive AuthResult where
  | failure (message : String)
  | success (message : String) (username fullName role : String)
      (sessionToken csrfToken : String) (forcePasswordChange : Bool)
deriving DecidableEq, Repr

/-- Everything `authenticateUser` produces: its return value, the Users rows
after its `setValue` writes, the cache after token issuance, and the number of
`verifyPassword` invocations (each of which calls `hashPassword` once) —
recorded so that not-invoking the hasher in a branch is statable. -/
structure AuthOutcome where
  result : AuthResult
  users : List UserRow
  cache : Cache
  hashCalls : Nat
deriving DecidableEq, Repr

/-- The body of `authenticateUser` for the first row whose username matches
(src/Dashboard.js lines 449-520): status check, lockout check, password
verification, counter reset on success with token issuance, counter increment
and possible lock on failure.  Returns (result, updated row, updated cache,
number of `verifyPassword` invocations). -/
def authUserRow (row : UserRow) (now : Nat) (sessionUuid csrfUuid nowIso : String)
    (cache : Cache) (password : String) : AuthResult × UserRow × Cache × Nat :=
  if row.status ≠ "Active" then
    (.failure "Account is inactive. Please contact administrator.", row, cache, 0)
  else
    match row.lockedUntil with
    | some lockedUntil =>
      if now < lockedUntil then
        let minutesLeft := (lockedUntil - now + 59999) / 60000
        (.failure ("Account locked due to multiple failed login attempts. Try again in "
          ++ toString minutesLeft ++ " minute"
          ++ (if minutesLeft ≠ 1 then "s" else "") ++ "."), row, cache, 0)
      else authVerifyRow row now sessionUuid csrfUuid nowIso cache password
    | none => authVerifyRow row now sessionUuid csrfUuid nowIso cache password
where
  /-- Lines 472-519: the branch reached when the account is not locked. -/
  authVerifyRow (row : UserRow) (now : Nat) (sessionUuid csrfUuid nowIso : String)
      (cache : Cache) (password : String) : AuthResult × UserRow × Cache × Nat :=
    if verifyPassword password row.passwordHash then
      let row' := { row with failedAttempts := 0, lastFailedAt := none, lockedUntil := none }
      let st := generateSessionToken sessionUuid nowIso row.username cache
      let ct := generateCsrfToken csrfUuid row.username st.2
      (.success "Login successful!" row.username row.fullName row.role st.1 ct.1
        (row.forcePasswordChange == "TRUE"), row', ct.2, 1)
    else
      let newFailedAttempts := row.failedAttempts + 1
      let rowF := { row with failedAttempts := newFailedAttempts, lastFailedAt := some now }
      if newFailedAttempts ≥ MAX_LOGIN_ATTEMPTS then
        let lockUntil := now + LOCKOUT_DURATION_MINUTES * 60000
        (.failure ("Account locked due to multiple failed login attempts. Try again in "
          ++ toString LOCKOUT_DURATION_MINUTES ++ " minutes."),
          { rowF with lockedUntil := some lockUntil }, cache, 1)
      else
        let attemptsLeft := MAX_LOGIN_ATTEMPTS - newFailedAttempts
        (.failure ("Invalid credentials. " ++ toString attemptsLeft ++ " attempt"
          ++ (if attemptsLeft ≠ 1 then "s" else "") ++ " remaining."), rowF, cache, 1)

/-- The row scan of `authenticateUser` (src/Dashboard.js lines 445-524): the
first row with a matching username is processed and the loop returns from
inside; if no row matches, the generic anti-enumeration failure is
returned. -/
def authSearch (now : Nat) (sessionUuid csrfUuid nowIso : String) (cache : Cache)
    (username password : String) : List UserRow → AuthOutcome
  | [] => ⟨.failure "Invalid credentials", [], cache, 0⟩
  | row :: rest =>
    if row.username = username then
      let t := authUserRow row now sessionUuid csrfUuid nowIso cache password
      ⟨t.1, t.2.1 :: rest, t.2.2.1, t.2.2.2⟩
    else
      let o := authSearch now sessionUuid csrfUuid nowIso cache username password rest
      ⟨o.result, row :: o.users, o.cache, o.hashCalls⟩

/-- `authenticateUser` (src/Dashboard.js lines 424-529).  `users` is the Users
sheet without its header row; `now` is `new Date()` in ms.  The credential
arguments are `Option String`: `none` models a missing or non-string value
(both fail the source's `!x || typeof x !== 'string'` test exactly like the
empty string does). -/
def authenticateUser (users : List UserRow) (now : Nat)
    (sessionUuid csrfUuid nowIso : String) (cache : Cache)
    (usernameInput passwordInput : Option String) : AuthOutcome :=
  match usernameInput, passwordInput with
  | some username, some password =>
    if username = "" ∨ password = "" then ⟨.failure "Invalid credentials", users, cache, 0⟩
    else if username.length > 50 ∨ password.length > 128 then
      ⟨.failure "Invalid credentials", users, cache, 0⟩
    else authSearch now sessionUuid csrfUuid nowIso cache username password users
  | _, _ => ⟨.failure "Invalid credentials", users, cache, 0⟩

/-- The `{success, message}` result of `changePassword` (src/Security.js). -/
structure ChangeResult where
  success : Bool
  message : String
deriving DecidableEq, Repr

/-- The body of `changePassword` for the found user row (src/Security.js
lines 268-310): verify the current password, validate the new one, reject a
hash present in the stored history, otherwise store the new hash, push it on
the history (keeping the `PASSWORD_HISTORY_COUNT` most recent entries) and
write the text `'FALSE'` into the force-password-change column. -/
def changeRow (row : UserRow) (currentPassword newPassword : String) :
    ChangeResult × UserRow :=
  if ¬ verifyPassword currentPassword row.passwordHash then
    (⟨false, "Current password is incorrect"⟩, row)
  else
    match validatePassword newPassword with
    | some err => (⟨false, err⟩, row)
    | none =>
      let hashedNewPassword := hashPassword newPassword
      if hashedNewPassword ∈ row.passwordHistory then
        (⟨false, "Password was used recently. Please choose a different password."⟩, row)
      else
        (⟨true, "Password changed successfully"⟩,
         { row with
            passwordHash := hashedNewPassword
            passwordHistory := (hashedNewPassword :: row.passwordHistory).take
              PASSWORD_HISTORY_COUNT
            forcePasswordChange := "FALSE" })

/-- The row scan of `changePassword` (src/Security.js lines 254-265): the
first row with a matching username is selected; without a match the
user-not-found failure is returned. -/
def changeSearch (username currentPassword newPassword : String) :
    List UserRow → ChangeResult × List UserRow
  | [] => (⟨false, "User not found"⟩, [])
  | row :: rest =>
    if row.username = username then
      let t := changeRow row currentPassword newPassword
      (t.1, t.2 :: rest)
    else
      let o := changeSearch username currentPassword newPassword rest
      (o.1, row :: o.2)

/-- `changePassword` (src/Security.js lines 242-315) over the Users sheet
without its header row. -/
def changePassword (users : List UserRow) (username currentPassword newPassword : String) :
    ChangeResult × List UserRow :=
  changeSearch username currentPassword newPassword users

/-- One data row of the Audit Trail sheet (header excluded).  `timestamp`
models column 2: `none` is an empty or unparsable cell (an invalid date),
`some ms` a valid timestamp. -/
structure AuditRow where
  auditId : String
  timestamp : Option Nat
  username : String
  action : String
  targetType : String
  targetName : String
  details : String
deriving DecidableEq, Repr

/-- `logAudit` (src/Audit.js lines 6-40): appends one row.  The time-derived
`'AUD' + formatDate(...)` id is a platform computation modelled by the
`auditId` argument; `username || 'System'` and `details || ''` are the
source's falsy defaults. -/
def logAudit (sheet : List AuditRow) (auditId : String) (timestamp : Nat)
    (username action targetType targetName details : String) : List AuditRow :=
  sheet ++ [⟨auditId, some timestamp,
    (if username = "" then "System" else username),
    action, targetType, targetName, details⟩]

/-- The activity object built by `getRecentActivity` (src/Audit.js lines
85-94). `timestampFormatted` uses the platform `Utilities.formatDate`,
modelled from the spec as a deterministic rendering of the timestamp (decimal
here), with the source's empty-cell fallback `''`. -/
structure Activity where
  auditId : String
  timestamp : Option Nat
  timestampFormatted : String
  username : String
  action : String
  targetType : String
  targetName : String
  details : String
deriving DecidableEq, Repr

/-- Row-to-activity conversion of `getRecentActivity` (src/Audit.js lines
71-95): every data row is pushed, with missing cells defaulted to the empty
string. -/
def toActivity (row : AuditRow) : Activity :=
  { auditId := row.auditId
    timestamp := row.timestamp
    timestampFormatted := match row.timestamp with
      | some n => toString n
      | none => ""
    username := row.username
    action := row.action
    targetType := row.targetType
    targetName := row.targetName
    details := row.details }

/-- The sort comparator of `getRecentActivity` (src/Audit.js lines 100-104),
`(a, b) => dateB - dateA`, as the predicate "`a` may stay before `b`":
descending by timestamp; when either timestamp is invalid the comparator
yields `NaN`, which `Array.prototype.sort` coerces to `0` (a tie, keeping the
original order under a stable sort). -/
def actLe (a b : Activity) : Prop :=
  match a.timestamp, b.timestamp with
  | some x, some y => y ≤ x
  | _, _ => True

instance : DecidableRel actLe := fun a b => by
  unfold actLe
  exact match a.timestamp, b.timestamp with
    | some x, some y => Nat.decLe y x
    | some _, none => .isTrue trivial
    | none, some _ => .isTrue trivial
    | none, none => .isTrue trivial

/-- `getRecentActivity` (src/Audit.js lines 47-117): with no data rows return
`[]`; otherwise convert every row, sort newest-first with the stable platform
sort, and truncate to `limit || 10` (so an absent limit — and a limit of 0,
which is falsy — both mean 10). -/
def getRecentActivity (sheet : List AuditRow) (limit : Option Nat) : List Activity :=
  if sheet.isEmpty then []
  else
    let activities := sheet.map toActivity
    let sorted := List.insertionSort actLe activities
    let maxLimit := match limit with
      | some n => if n = 0 then 10 else n
      | none => 10
    sorted.take maxLimit

/-- The row scan processes the first matching row in place and leaves every
other row untouched. -/
theorem authSearch_append (now : Nat) (su cu ni : String) (cache : Cache)
    (username password : String) (pre post : List UserRow) (row : UserRow)
    (hpre : ∀ r ∈ pre, r.username ≠ username) (hrow : row.username = username) :
    authSearch now su cu ni cache username password (pre ++ row :: post) =
      ⟨(authUserRow row now su cu ni cache password).1,
       pre ++ (authUserRow row now su cu ni cache password).2.1 :: post,
       (authUserRow row now su cu ni cache password).2.2.1,
       (authUserRow row now su cu ni cache password).2.2.2⟩ := by
  induction pre with
  | nil => simp [authSearch, hrow]
  | cons r t ih =>
    have hr : r.username ≠ username := hpre r (by simp)
    simp [authSearch, hr, ih (fun x hx => hpre x (by simp [hx]))]

/-- Processing an active, not-currently-locked row with the correct password:
counters reset, tokens issued. -/
theorem authUserRow_success (row : UserRow) (now : Nat) (su cu ni : String)
    (cache : Cache) (password : String)
    (hs : row.status = "Active")
    (hl : ∀ t, row.lockedUntil = some t → t ≤ now)
    (hpw : hashPassword password = row.passwordHash) :
    authUserRow row now su cu ni cache password =
      (.success "Login successful!" row.username row.fullName row.role
        (generateSessionToken su ni row.username cache).1
        (generateCsrfToken cu row.username (generateSessionToken su ni row.username cache).2).1
        (row.forcePasswordChange == "TRUE"),
       { row with failedAttempts := 0, lastFailedAt := none, lockedUntil := none },
       (generateCsrfToken cu row.username (generateSessionToken su ni row.username cache).2).2,
       1) := by
  have hv : verifyPassword password row.passwordHash = true := by
    simp [verifyPassword, hpw]
  cases hlock : row.lockedUntil with
  | none => simp [authUserRow, authUserRow.authVerifyRow, hs, hlock, hv]
  | some t =>
    have ht : ¬ now < t := by
      have := hl t hlock
      omega
    simp [authUserRow, authUserRow.authVerifyRow, hs, hlock, ht, hv]

/-- Processing an active row whose lock is still in effect: immediate
rejection with the minutes remaining, no state change, no hash call. -/
theorem authUserRow_locked (row : UserRow) (now : Nat) (su cu ni : String)
    (cache : Cache) (password : String) (t : Nat)
    (hs : row.status = "Active") (hl : row.lockedUntil = some t) (hn : now < t) :
    authUserRow row now su cu ni cache password =
      (.failure ("Account locked due to multiple failed login attempts. Try again in "
        ++ toString ((t - now + 59999) / 60000) ++ " minute"
        ++ (if (t - now + 59999) / 60000 ≠ 1 then "s" else "") ++ "."),
       row, cache, 0) := by
  simp [authUserRow, hs, hl, hn]

/-- Processing an active, not-currently-locked row with a wrong password,
below the lock threshold: counter increment, attempts-remaining message. -/
theorem authUserRow_wrongpw (row : UserRow) (now : Nat) (su cu ni : String)
    (cache : Cache) (password : String)
    (hs : row.status = "Active")
    (hl : ∀ t, row.lockedUntil = some t → t ≤ now)
    (hpw : hashPassword password ≠ row.passwordHash)
    (hbelow : row.failedAttempts + 1 < MAX_LOGIN_ATTEMPTS) :
    authUserRow row now su cu ni cache password =
      (.failure ("Invalid credentials. "
        ++ toString (MAX_LOGIN_ATTEMPTS - (row.failedAttempts + 1)) ++ " attempt"
        ++ (if MAX_LOGIN_ATTEMPTS - (row.failedAttempts + 1) ≠ 1 then "s" else "")
        ++ " remaining."),
       { row with failedAttempts := row.failedAttempts + 1, lastFailedAt := some now },
       cache, 1) := by
  have hv : verifyPassword password row.passwordHash = false := by
    simp [verifyPassword]
    exact hpw
  have hge : ¬ row.failedAttempts + 1 ≥ MAX_LOGIN_ATTEMPTS := by omega
  cases hlock : row.lockedUntil with
  | none => simp [authUserRow, authUserRow.authVerifyRow, hs, hlock, hv, hge]
  | some t =>
    have ht : ¬ now < t := by
      have := hl t hlock
      omega
    simp [authUserRow, authUserRow.authVerifyRow, hs, hlock, ht, hv, hge]

/-- Processing an active, not-currently-locked row with a wrong password at
the lock threshold: the account is locked for `LOCKOUT_DURATION_MINUTES`. -/
theorem authUserRow_lockout (row : UserRow) (now : Nat) (su cu ni : String)
    (cache : Cache) (password : String)
    (hs : row.status = "Active")
    (hl : ∀ t, row.lockedUntil = some t → t ≤ now)
    (hpw : hashPassword password ≠ row.passwordHash)
    (hthr : row.failedAttempts + 1 ≥ MAX_LOGIN_ATTEMPTS) :
    authUserRow row now su cu ni cache password =
      (.failure "Account locked due to multiple failed login attempts. Try again in 15 minutes.",
       { row with
          failedAttempts := row.failedAttempts + 1
          lastFailedAt := some now
          lockedUntil := some (now + LOCKOUT_DURATION_MINUTES * 60000) },
       cache, 1) := by
  have hv : verifyPassword password row.passwordHash = false := by
    simp [verifyPassword]
    exact hpw
  cases hlock : row.lockedUntil with
  | none =>
    simp [authUserRow, authUserRow.authVerifyRow, hs, hlock, hv, hthr]
    rfl
  | some t =>
    have ht : ¬ now < t := by
      have := hl t hlock
      omega
    simp [authUserRow, authUserRow.authVerifyRow, hs, hlock, ht, hv, hthr]
    rfl

/-- `authenticateUser` on well-formed credentials delegates to the row
scan. -/
theorem authenticateUser_valid (users : List UserRow) (now : Nat)
    (su cu ni : String) (cache : Cache) (username password : String)
    (hue : username ≠ "") (hul : username.length ≤ 50)
    (hpe : password ≠ "") (hpl : password.length ≤ 128) :
    authenticateUser users now su cu ni cache (some username) (some password) =
      authSearch now su cu ni cache username password users := by
  have h1 : ¬ (username = "" ∨ password = "") := by simp [hue, hpe]
  have h2 : ¬ (username.length > 50 ∨ password.length > 128) := by omega
  simp [authenticateUser, h1, h2]

/-- A CSRF cache key never collides with a session cache key (the prefixes
differ at their first character). -/
theorem csrf_key_ne_session_key (x y : String) :
    ("csrf_token_" ++ x) ≠ ("session_" ++ y) := by
  intro h
  have h2 := congrArg (fun s => s.data.head?) h
  simp [String.data_append] at h2

/-- C1: for an Active account whose lock is not in effect and whose stored
hash matches the supplied (well-formed) password, `authenticateUser` returns
success carrying the user profile (username, fullName, role), the session
token, the CSRF token and the force-password-change flag; it writes
`failedAttempts = 0` and clears `lastFailedAt` and `lockedUntil` on that row;
and `validateSessionToken` applied immediately to the returned session token
(over a working cache, with a nonempty uuid) yields that username. -/
theorem authenticateUser_success_issues_valid_session
    (pre post : List UserRow) (row : UserRow) (now : Nat)
    (su cu ni : String) (cache : Cache) (password : String)
    (hpre : ∀ r ∈ pre, r.username ≠ row.username)
    (hue : row.username ≠ "") (hul : row.username.length ≤ 50)
    (hpe : password ≠ "") (hpl : password.length ≤ 128)
    (hs : row.status = "Active")
    (hl : ∀ t, row.lockedUntil = some t → t ≤ now)
    (hpw : hashPassword password = row.passwordHash)
    (hcf : cache.failing = false) (hsu : su ≠ "") :
    authenticateUser (pre ++ row :: post) now su cu ni cache
        (some row.username) (some password) =
      ⟨.success "Login successful!" row.username row.fullName row.role su cu
         (row.forcePasswordChange == "TRUE"),
       pre ++ { row with failedAttempts := 0, lastFailedAt := none, lockedUntil := none } :: post,
       ((cache.put ("session_" ++ su) (.session row.username ni)
          (SESSION_TIMEOUT_MINUTES * 60)).put
         ("csrf_token_" ++ row.username) (.str cu) 3600),
       1⟩ ∧
    validateSessionToken su
        ((cache.put ("session_" ++ su) (.session row.username ni)
          (SESSION_TIMEOUT_MINUTES * 60)).put
         ("csrf_token_" ++ row.username) (.str cu) 3600) =
      some ⟨row.username, ni⟩ := by
  constructor
  · rw [authenticateUser_valid _ _ _ _ _ _ _ _ hue hul hpe hpl,
      authSearch_append _ _ _ _ _ _ _ _ _ _ hpre rfl,
      authUserRow_success _ _ _ _ _ _ _ hs hl hpw]
    simp [generateSessionToken, generateCsrfToken, Cache.put, hcf]
  · have hne := csrf_key_ne_session_key row.username su
    simp [validateSessionToken, hsu, Cache.put, Cache.get, hcf, List.find?, hne]

/-- Concrete C1 account fixture: Active, previously failed twice, lock
expired, pending force-password-change. -/
def aliceRow : UserRow :=
  ⟨"USR001", "alice", hashPassword "Secret1A", "Alice Smith", "Admin", "Active",
   "Jan 01, 2026", 2, some 5, some 100, [], "TRUE"⟩

/-- Witness for C1 at a concrete account, password, time and cache. -/
theorem authenticateUser_success_issues_valid_session_witness :
    (authenticateUser [aliceRow] 200 "uuid-session-1" "uuid-csrf-1" "t0"
        ⟨false, []⟩ (some "alice") (some "Secret1A")).result =
      .success "Login successful!" "alice" "Alice Smith" "Admin"
        "uuid-session-1" "uuid-csrf-1" true ∧
    validateSessionToken "uuid-session-1"
        ((Cache.put ⟨false, []⟩ ("session_" ++ "uuid-session-1")
            (.session "alice" "t0") (SESSION_TIMEOUT_MINUTES * 60)).put
          ("csrf_token_" ++ "alice") (.str "uuid-csrf-1") 3600) =
      some ⟨"alice", "t0"⟩ := by
  have h := authenticateUser_success_issues_valid_session [] [] aliceRow 200
    "uuid-session-1" "uuid-csrf-1" "t0" ⟨false, []⟩ "Secret1A"
    (by simp) (by decide) (by decide) (by decide) (by decide) rfl
    (by intro t ht; simp [aliceRow] at ht; omega) rfl rfl (by decide)
  constructor
  · have h1 := congrArg AuthOutcome.result h.1
    simpa [aliceRow] using h1
  · simpa [aliceRow] using h.2


/-- One wrong-password call below the lock threshold, at the
`authenticateUser` level. -/
theorem authenticateUser_wrongpw_step (pre post : List UserRow) (row : UserRow)
    (now : Nat) (su cu ni : String) (cache : Cache) (password username : String)
    (n : Nat)
    (hpre : ∀ r ∈ pre, r.username ≠ username)
    (hun : row.username = username)
    (hue : username ≠ "") (hul : username.length ≤ 50)
    (hpe : password ≠ "") (hpl : password.length ≤ 128)
    (hs : row.status = "Active")
    (hl : ∀ t, row.lockedUntil = some t → t ≤ now)
    (hpw : hashPassword password ≠ row.passwordHash)
    (hfa : row.failedAttempts = n)
    (hbelow : n + 1 < MAX_LOGIN_ATTEMPTS) :
    authenticateUser (pre ++ row :: post) now su cu ni cache
        (some username) (some password) =
      ⟨.failure ("Invalid credentials. "
        ++ toString (MAX_LOGIN_ATTEMPTS - (n + 1)) ++ " attempt"
        ++ (if MAX_LOGIN_ATTEMPTS - (n + 1) ≠ 1 then "s" else "")
        ++ " remaining."),
       pre ++ { row with failedAttempts := n + 1, lastFailedAt := some now } :: post,
       cache, 1⟩ := by
  rw [authenticateUser_valid _ _ _ _ _ _ _ _ hue hul hpe hpl,
    authSearch_append _ _ _ _ _ _ _ _ _ _ hpre hun,
    authUserRow_wrongpw _ _ _ _ _ _ _ hs hl hpw (by rw [hfa]; exact hbelow)]
  rw [hfa]

/-- One wrong-password call at the lock threshold, at the `authenticateUser`
level. -/
theorem authenticateUser_lockout_step (pre post : List UserRow) (row : UserRow)
    (now : Nat) (su cu ni : String) (cache : Cache) (password username : String)
    (n : Nat)
    (hpre : ∀ r ∈ pre, r.username ≠ username)
    (hun : row.username = username)
    (hue : username ≠ "") (hul : username.length ≤ 50)
    (hpe : password ≠ "") (hpl : password.length ≤ 128)
    (hs : row.status = "Active")
    (hl : ∀ t, row.lockedUntil = some t → t ≤ now)
    (hpw : hashPassword password ≠ row.passwordHash)
    (hfa : row.failedAttempts = n)
    (hthr : n + 1 ≥ MAX_LOGIN_ATTEMPTS) :
    authenticateUser (pre ++ row :: post) now su cu ni cache
        (some username) (some password) =
      ⟨.failure "Account locked due to multiple failed login attempts. Try again in 15 minutes.",
       pre ++ { row with
          failedAttempts := n + 1
          lastFailedAt := some now
          lockedUntil := some (now + LOCKOUT_DURATION_MINUTES * 60000) } :: post,
       cache, 1⟩ := by
  rw [authenticateUser_valid _ _ _ _ _ _ _ _ hue hul hpe hpl,
    authSearch_append _ _ _ _ _ _ _ _ _ _ hpre hun,
    authUserRow_lockout _ _ _ _ _ _ _ hs hl hpw (by rw [hfa]; exact hthr)]
  rw [hfa]

/-- C2: starting from an Active, unlocked account with a clean counter,
exactly five consecutive wrong-password calls lock the account with
`lockedUntil = now + 15` minutes (and not earlier); the 4th failure reports
the singular "1 attempt remaining." and the 5th reports the lockout message.
In particular (last conjunct) a wrong-password attempt on any matching
account with `failedAttempts = 4` produces exactly the lockout result with
`lockedUntil = now + 15` minutes. -/
theorem fiveWrongPasswords_lock_account (pre post : List UserRow) (row : UserRow)
    (n1 n2 n3 n4 n5 : Nat) (su cu ni : String) (cache : Cache) (password : String)
    (hpre : ∀ r ∈ pre, r.username ≠ row.username)
    (hue : row.username ≠ "") (hul : row.username.length ≤ 50)
    (hpe : password ≠ "") (hpl : password.length ≤ 128)
    (hs : row.status = "Active") (hl : row.lockedUntil = none)
    (hfa : row.failedAttempts = 0)
    (hpw : hashPassword password ≠ row.passwordHash) :
    authenticateUser (pre ++ row :: post) n1 su cu ni cache
        (some row.username) (some password) =
      ⟨.failure "Invalid credentials. 4 attempts remaining.",
       pre ++ { row with failedAttempts := 1, lastFailedAt := some n1 } :: post, cache, 1⟩ ∧
    authenticateUser
        (pre ++ { row with failedAttempts := 1, lastFailedAt := some n1 } :: post)
        n2 su cu ni cache (some row.username) (some password) =
      ⟨.failure "Invalid credentials. 3 attempts remaining.",
       pre ++ { row with failedAttempts := 2, lastFailedAt := some n2 } :: post, cache, 1⟩ ∧
    authenticateUser
        (pre ++ { row with failedAttempts := 2, lastFailedAt := some n2 } :: post)
        n3 su cu ni cache (some row.username) (some password) =
      ⟨.failure "Invalid credentials. 2 attempts remaining.",
       pre ++ { row with failedAttempts := 3, lastFailedAt := some n3 } :: post, cache, 1⟩ ∧
    authenticateUser
        (pre ++ { row with failedAttempts := 3, lastFailedAt := some n3 } :: post)
        n4 su cu ni cache (some row.username) (some password) =
      ⟨.failure "Invalid credentials. 1 attempt remaining.",
       pre ++ { row with failedAttempts := 4, lastFailedAt := some n4 } :: post, cache, 1⟩ ∧
    authenticateUser
        (pre ++ { row with failedAttempts := 4, lastFailedAt := some n4 } :: post)
        n5 su cu ni cache (some row.username) (some password) =
      ⟨.failure "Account locked due to multiple failed login attempts. Try again in 15 minutes.",
       pre ++ { row with
          failedAttempts := 5
          lastFailedAt := some n5
          lockedUntil := some (n5 + 900000) } :: post, cache, 1⟩ ∧
    (∀ (pre' post' : List UserRow) (row4 : UserRow) (now' : Nat),
      (∀ r ∈ pre', r.username ≠ row4.username) →
      row4.username ≠ "" → row4.username.length ≤ 50 →
      row4.status = "Active" → row4.lockedUntil = none →
      row4.failedAttempts = 4 →
      hashPassword password ≠ row4.passwordHash →
      authenticateUser (pre' ++ row4 :: post') now' su cu ni cache
          (some row4.username) (some password) =
        ⟨.failure "Account locked due to multiple failed login attempts. Try again in 15 minutes.",
         pre' ++ { row4 with
            failedAttempts := 5
            lastFailedAt := some now'
            lockedUntil := some (now' + 900000) } :: post', cache, 1⟩) := by
  have hlock : ∀ t, row.lockedUntil = some t → t ≤ n1 := by
    intro t ht
    rw [hl] at ht
    cases ht
  refine ⟨?_, ?_, ?_, ?_, ?_, ?_⟩
  · have h := authenticateUser_wrongpw_step pre post row n1 su cu ni cache
      password row.username 0 hpre rfl hue hul hpe hpl hs hlock hpw hfa (by decide)
    rw [h]
    rfl
  · have h := authenticateUser_wrongpw_step pre post
      { row with failedAttempts := 1, lastFailedAt := some n1 }
      n2 su cu ni cache password row.username 1 hpre rfl hue hul hpe hpl hs
      (by intro t ht; simp [hl] at ht) hpw rfl (by decide)
    rw [h]
    rfl
  · have h := authenticateUser_wrongpw_step pre post
      { row with failedAttempts := 2, lastFailedAt := some n2 }
      n3 su cu ni cache password row.username 2 hpre rfl hue hul hpe hpl hs
      (by intro t ht; simp [hl] at ht) hpw rfl (by decide)
    rw [h]
    rfl
  · have h := authenticateUser_wrongpw_step pre post
      { row with failedAttempts := 3, lastFailedAt := some n3 }
      n4 su cu ni cache password row.username 3 hpre rfl hue hul hpe hpl hs
      (by intro t ht; simp [hl] at ht) hpw rfl (by decide)
    rw [h]
    rfl
  · have h := authenticateUser_lockout_step pre post
      { row with failedAttempts := 4, lastFailedAt := some n4 }
      n5 su cu ni cache password row.username 4 hpre rfl hue hul hpe hpl hs
      (by intro t ht; simp [hl] at ht) hpw rfl (by decide)
    rw [h]
    rfl
  · intro pre' post' row4 now' hpre4 hue4 hul4 hs4 hl4 hfa4 hpw4
    have h := authenticateUser_lockout_step pre' post' row4 now' su cu ni cache
      password row4.username 4 hpre4 rfl hue4 hul4 hpe hpl hs4
      (by intro t ht; rw [hl4] at ht; cases ht) hpw4 hfa4 (by decide)
    rw [h]
    rfl

/-- Concrete C2 account fixture: Active, unlocked, clean counter. -/
def carolRow : UserRow :=
  ⟨"USR002", "carol", hashPassword "RightPw1", "Carol C", "Viewer", "Active",
   "", 0, none, none, [], "FALSE"⟩

/-- Witness for C2: the 4th and 5th consecutive wrong-password attempts on a
concrete account, showing the singular message and the lockout write. -/
theorem fiveWrongPasswords_lock_account_witness :
    (authenticateUser ([] ++ { carolRow with failedAttempts := 3, lastFailedAt := some 3 } :: [])
        4 "s" "c" "t" ⟨false, []⟩ (some carolRow.username) (some "WrongPw1A")).result =
      .failure "Invalid credentials. 1 attempt remaining." ∧
    (authenticateUser ([] ++ { carolRow with failedAttempts := 4, lastFailedAt := some 4 } :: [])
        5 "s" "c" "t" ⟨false, []⟩ (some carolRow.username) (some "WrongPw1A")).users =
      [] ++ { carolRow with
        failedAttempts := 5
        lastFailedAt := some 5
        lockedUntil := some (5 + 900000) } :: [] := by
  have h := fiveWrongPasswords_lock_account [] [] carolRow 1 2 3 4 5 "s" "c" "t"
    ⟨false, []⟩ "WrongPw1A" (by simp) (by decide) (by decide) (by decide)
    (by decide) rfl rfl rfl (by decide)
  exact ⟨by rw [h.2.2.2.1], by rw [h.2.2.2.2.1]⟩

/-- C3: while a lock is in effect (`now < lockedUntil`) on an Active account,
`authenticateUser` — whatever the password, including the correct one —
returns a failure whose minutes-remaining is the ceiling of
`(lockedUntil - now) / 60000`, performs no `verifyPassword`/`hashPassword`
call (`hashCalls = 0`), and leaves the row (in particular `failedAttempts`,
`lastFailedAt`, `lockedUntil`) and the cache unchanged. -/
theorem authenticateUser_locked_frame (pre post : List UserRow) (row : UserRow)
    (now t : Nat) (su cu ni : String) (cache : Cache) (password : String)
    (hpre : ∀ r ∈ pre, r.username ≠ row.username)
    (hue : row.username ≠ "") (hul : row.username.length ≤ 50)
    (hpe : password ≠ "") (hpl : password.length ≤ 128)
    (hs : row.status = "Active")
    (hl : row.lockedUntil = some t) (hn : now < t) :
    authenticateUser (pre ++ row :: post) now su cu ni cache
        (some row.username) (some password) =
      ⟨.failure ("Account locked due to multiple failed login attempts. Try again in "
        ++ toString ((t - now + 59999) / 60000) ++ " minute"
        ++ (if (t - now + 59999) / 60000 ≠ 1 then "s" else "") ++ "."),
       pre ++ row :: post, cache, 0⟩ ∧
    (t - now + 59999) / 60000 = (t - now) ⌈/⌉ 60000 := by
  constructor
  · rw [authenticateUser_valid _ _ _ _ _ _ _ _ hue hul hpe hpl,
      authSearch_append _ _ _ _ _ _ _ _ _ _ hpre rfl,
      authUserRow_locked _ _ _ _ _ _ _ _ hs hl hn]
  · rw [Nat.ceilDiv_eq_add_pred_div]
    omega

/-- Concrete C3 account fixture: Active, locked until t=700000, counters
mid-sequence. -/
def danRow : UserRow :=
  ⟨"USR003", "dan", hashPassword "DanPass1", "Dan D", "Viewer", "Active",
   "", 3, some 90000, some 700000, [], "FALSE"⟩

/-- Witness for C3: a login with the correct password at `now = 100000`
against a row locked until `700000` is rejected with 10 minutes remaining and
without touching the row, the cache, or the hasher. -/
theorem authenticateUser_locked_frame_witness :
    authenticateUser ([] ++ danRow :: []) 100000 "s" "c" "t" ⟨false, []⟩
        (some danRow.username) (some "DanPass1") =
      ⟨.failure "Account locked due to multiple failed login attempts. Try again in 10 minutes.",
       [] ++ danRow :: [], ⟨false, []⟩, 0⟩ := by
  have h := authenticateUser_locked_frame [] [] danRow 100000 700000 "s" "c" "t"
    ⟨false, []⟩ "DanPass1" (by simp) (by decide) (by decide) (by decide)
    (by decide) rfl rfl (by decide)
  rw [h.1]
  rfl

/-- C4: a storage-layer error during token issuance is caught inside
`generateSessionToken` / `generateCsrfToken`, which return the empty string
and leave the store untouched rather than propagating; `authenticateUser`
then still returns `success = true` with empty `sessionToken` and
`csrfToken`. -/
theorem tokenIssuanceFailure_login_still_success (pre post : List UserRow)
    (row : UserRow) (now : Nat) (su cu ni : String) (cache : Cache)
    (password : String)
    (hpre : ∀ r ∈ pre, r.username ≠ row.username)
    (hue : row.username ≠ "") (hul : row.username.length ≤ 50)
    (hpe : password ≠ "") (hpl : password.length ≤ 128)
    (hs : row.status = "Active")
    (hl : ∀ t, row.lockedUntil = some t → t ≤ now)
    (hpw : hashPassword password = row.passwordHash)
    (hcf : cache.failing = true) :
    (∀ (uuid nowIso username : String) (c : Cache), c.failing = true →
       generateSessionToken uuid nowIso username c = ("", c)) ∧
    (∀ (uuid username : String) (c : Cache), c.failing = true →
       generateCsrfToken uuid username c = ("", c)) ∧
    authenticateUser (pre ++ row :: post) now su cu ni cache
        (some row.username) (some password) =
      ⟨.success "Login successful!" row.username row.fullName row.role "" ""
         (row.forcePasswordChange == "TRUE"),
       pre ++ { row with failedAttempts := 0, lastFailedAt := none, lockedUntil := none } :: post,
       cache, 1⟩ := by
  refine ⟨?_, ?_, ?_⟩
  · intro uuid nowIso username c hc
    simp [generateSessionToken, hc]
  · intro uuid username c hc
    simp [generateCsrfToken, hc]
  · rw [authenticateUser_valid _ _ _ _ _ _ _ _ hue hul hpe hpl,
      authSearch_append _ _ _ _ _ _ _ _ _ _ hpre rfl,
      authUserRow_success _ _ _ _ _ _ _ hs hl hpw]
    simp [generateSessionToken, generateCsrfToken, hcf]

/-- Witness for C4: a correct login against a failing cache still reports
success, with both token strings empty. -/
theorem tokenIssuanceFailure_login_still_success_witness :
    generateSessionToken "u1" "t0" "alice" ⟨true, []⟩ = ("", ⟨true, []⟩) ∧
    (authenticateUser ([] ++ aliceRow :: []) 200 "u1" "u2" "t0" ⟨true, []⟩
        (some aliceRow.username) (some "Secret1A")).result =
      .success "Login successful!" "alice" "Alice Smith" "Admin" "" "" true := by
  have h := tokenIssuanceFailure_login_still_success [] [] aliceRow 200 "u1" "u2"
    "t0" ⟨true, []⟩ "Secret1A" (by simp) (by decide) (by decide) (by decide)
    (by decide) rfl (by intro t ht; simp [aliceRow] at ht; omega) rfl rfl
  refine ⟨h.1 "u1" "t0" "alice" ⟨true, []⟩ rfl, ?_⟩
  rw [h.2.2]
  rfl

/-- C5: when the lock has naturally expired (`now ≥ lockedUntil`),
`authenticateUser` does not short-circuit to the lockout rejection: a call
with the correct password succeeds, resets `failedAttempts` to 0 and clears
`lastFailedAt` and `lockedUntil`. -/
theorem authenticateUser_expiredLock_success (pre post : List UserRow)
    (row : UserRow) (now t : Nat) (su cu ni : String) (cache : Cache)
    (password : String)
    (hpre : ∀ r ∈ pre, r.username ≠ row.username)
    (hue : row.username ≠ "") (hul : row.username.length ≤ 50)
    (hpe : password ≠ "") (hpl : password.length ≤ 128)
    (hs : row.status = "Active")
    (hl : row.lockedUntil = some t) (hexp : t ≤ now)
    (hpw : hashPassword password = row.passwordHash) :
    authenticateUser (pre ++ row :: post) now su cu ni cache
        (some row.username) (some password) =
      ⟨.success "Login successful!" row.username row.fullName row.role
         (generateSessionToken su ni row.username cache).1
         (generateCsrfToken cu row.username (generateSessionToken su ni row.username cache).2).1
         (row.forcePasswordChange == "TRUE"),
       pre ++ { row with failedAttempts := 0, lastFailedAt := none, lockedUntil := none } :: post,
       (generateCsrfToken cu row.username (generateSessionToken su ni row.username cache).2).2,
       1⟩ := by
  rw [authenticateUser_valid _ _ _ _ _ _ _ _ hue hul hpe hpl,
    authSearch_append _ _ _ _ _ _ _ _ _ _ hpre rfl,
    authUserRow_success _ _ _ _ _ _ _ hs
      (by intro t' ht'; rw [hl] at ht'; cases ht'; exact hexp) hpw]

/-- Witness for C5: the C3 fixture account, attempted after its lock expired
(`now = 800000 ≥ 700000`), logs in successfully and its counters reset. -/
theorem authenticateUser_expiredLock_success_witness :
    (authenticateUser ([] ++ danRow :: []) 800000 "s" "c" "t" ⟨false, []⟩
        (some danRow.username) (some "DanPass1")).result =
      .success "Login successful!" "dan" "Dan D" "Viewer" "s" "c" false ∧
    (authenticateUser ([] ++ danRow :: []) 800000 "s" "c" "t" ⟨false, []⟩
        (some danRow.username) (some "DanPass1")).users =
      [] ++ { danRow with failedAttempts := 0, lastFailedAt := none, lockedUntil := none } :: [] := by
  have h := authenticateUser_expiredLock_success [] [] danRow 800000 700000
    "s" "c" "t" ⟨false, []⟩ "DanPass1" (by simp) (by decide) (by decide)
    (by decide) (by decide) rfl rfl (by decide) rfl
  constructor
  · rw [h]
    rfl
  · rw [h]

/-- Unequal passwords have unequal hashes (the modelled digest is
collision-free). -/
theorem hash_ne {p q : String} (hne : p ≠ q) : hashPassword p ≠ hashPassword q :=
  fun h => hne (hashPassword_inj h)

/-- The `changePassword` row scan processes the first matching row in place
and leaves every other row untouched. -/
theorem changeSearch_append (username cur new : String) (pre post : List UserRow)
    (row : UserRow)
    (hpre : ∀ r ∈ pre, r.username ≠ username) (hrow : row.username = username) :
    changeSearch username cur new (pre ++ row :: post) =
      ((changeRow row cur new).1, pre ++ (changeRow row cur new).2 :: post) := by
  induction pre with
  | nil => simp [changeSearch, hrow]
  | cons r t ih =>
    have hr : r.username ≠ username := hpre r (by simp)
    simp [changeSearch, hr, ih (fun x hx => hpre x (by simp [hx]))]

/-- A change to a password whose hash sits in the stored history is
rejected without touching the row. -/
theorem changeRow_history_reject (row : UserRow) (cur new : String)
    (hcur : hashPassword cur = row.passwordHash)
    (hval : validatePassword new = none)
    (hhist : hashPassword new ∈ row.passwordHistory) :
    changeRow row cur new =
      (⟨false, "Password was used recently. Please choose a different password."⟩, row) := by
  have hv : verifyPassword cur row.passwordHash = true := by
    simp [verifyPassword, hcur]
  simp [changeRow, hv, hval, hhist]

/-- A valid, non-reused change stores the new hash, pushes it on the history
(capped at `PASSWORD_HISTORY_COUNT`) and clears the force flag. -/
theorem changeRow_success (row : UserRow) (cur new : String)
    (hcur : hashPassword cur = row.passwordHash)
    (hval : validatePassword new = none)
    (hhist : hashPassword new ∉ row.passwordHistory) :
    changeRow row cur new =
      (⟨true, "Password changed successfully"⟩,
       { row with
          passwordHash := hashPassword new
          passwordHistory := (hashPassword new :: row.passwordHistory).take
            PASSWORD_HISTORY_COUNT
          forcePasswordChange := "FALSE" }) := by
  have hv : verifyPassword cur row.passwordHash = true := by
    simp [verifyPassword, hcur]
  simp [changeRow, hv, hval, hhist]

/-- Successful `changePassword`, at the whole-sheet level. -/
theorem changePassword_success_step (pre post : List UserRow) (row : UserRow)
    (username cur new : String)
    (hpre : ∀ r ∈ pre, r.username ≠ username) (hun : row.username = username)
    (hcur : hashPassword cur = row.passwordHash)
    (hval : validatePassword new = none)
    (hhist : hashPassword new ∉ row.passwordHistory) :
    changePassword (pre ++ row :: post) username cur new =
      (⟨true, "Password changed successfully"⟩,
       pre ++ { row with
          passwordHash := hashPassword new
          passwordHistory := (hashPassword new :: row.passwordHistory).take
            PASSWORD_HISTORY_COUNT
          forcePasswordChange := "FALSE" } :: post) := by
  rw [changePassword, changeSearch_append _ _ _ _ _ _ hpre hun,
    changeRow_success _ _ _ hcur hval hhist]

/-- C6: (1) a new password whose hash is among the stored history hashes is
rejected and the sheet is unchanged; (2) a successful change pushes the new
hash on the history capped at `PASSWORD_HISTORY_COUNT` (5) entries, evicting
the oldest on overflow, so the stored history never exceeds 5 entries; (3)
after 5 successful changes the original password's hash has been evicted and
changing back to the original succeeds. -/
theorem passwordHistory_policy :
    (∀ (pre post : List UserRow) (row : UserRow) (cur new : String),
      (∀ r ∈ pre, r.username ≠ row.username) →
      hashPassword cur = row.passwordHash →
      validatePassword new = none →
      hashPassword new ∈ row.passwordHistory →
      changePassword (pre ++ row :: post) row.username cur new =
        (⟨false, "Password was used recently. Please choose a different password."⟩,
         pre ++ row :: post)) ∧
    (∀ (pre post : List UserRow) (row : UserRow) (cur new : String),
      (∀ r ∈ pre, r.username ≠ row.username) →
      hashPassword cur = row.passwordHash →
      validatePassword new = none →
      hashPassword new ∉ row.passwordHistory →
      changePassword (pre ++ row :: post) row.username cur new =
        (⟨true, "Password changed successfully"⟩,
         pre ++ { row with
            passwordHash := hashPassword new
            passwordHistory := (hashPassword new :: row.passwordHistory).take
              PASSWORD_HISTORY_COUNT
            forcePasswordChange := "FALSE" } :: post) ∧
      ((hashPassword new :: row.passwordHistory).take PASSWORD_HISTORY_COUNT).length ≤
        PASSWORD_HISTORY_COUNT) ∧
    (∀ (row : UserRow) (u p0 p1 p2 p3 p4 p5 : String),
      row.username = u →
      row.passwordHash = hashPassword p0 →
      row.passwordHistory = [hashPassword p0] →
      validatePassword p1 = none → validatePassword p2 = none →
      validatePassword p3 = none → validatePassword p4 = none →
      validatePassword p5 = none → validatePassword p0 = none →
      List.Pairwise (fun a b => a ≠ b) [p0, p1, p2, p3, p4, p5] →
      changePassword [row] u p0 p1 =
        (⟨true, "Password changed successfully"⟩,
         [{ row with
            passwordHash := hashPassword p1
            passwordHistory := [hashPassword p1, hashPassword p0]
            forcePasswordChange := "FALSE" }]) ∧
      changePassword
          [{ row with
            passwordHash := hashPassword p1
            passwordHistory := [hashPassword p1, hashPassword p0]
            forcePasswordChange := "FALSE" }] u p1 p2 =
        (⟨true, "Password changed successfully"⟩,
         [{ row with
            passwordHash := hashPassword p2
            passwordHistory := [hashPassword p2, hashPassword p1, hashPassword p0]
            forcePasswordChange := "FALSE" }]) ∧
      changePassword
          [{ row with
            passwordHash := hashPassword p2
            passwordHistory := [hashPassword p2, hashPassword p1, hashPassword p0]
            forcePasswordChange := "FALSE" }] u p2 p3 =
        (⟨true, "Password changed successfully"⟩,
         [{ row with
            passwordHash := hashPassword p3
            passwordHistory := [hashPassword p3, hashPassword p2, hashPassword p1,
              hashPassword p0]
            forcePasswordChange := "FALSE" }]) ∧
      changePassword
          [{ row with
            passwordHash := hashPassword p3
            passwordHistory := [hashPassword p3, hashPassword p2, hashPassword p1,
              hashPassword p0]
            forcePasswordChange := "FALSE" }] u p3 p4 =
        (⟨true, "Password changed successfully"⟩,
         [{ row with
            passwordHash := hashPassword p4
            passwordHistory := [hashPassword p4, hashPassword p3, hashPassword p2,
              hashPassword p1, hashPassword p0]
            forcePasswordChange := "FALSE" }]) ∧
      changePassword
          [{ row with
            passwordHash := hashPassword p4
            passwordHistory := [hashPassword p4, hashPassword p3, hashPassword p2,
              hashPassword p1, hashPassword p0]
            forcePasswordChange := "FALSE" }] u p4 p5 =
        (⟨true, "Password changed successfully"⟩,
         [{ row with
            passwordHash := hashPassword p5
            passwordHistory := [hashPassword p5, hashPassword p4, hashPassword p3,
              hashPassword p2, hashPassword p1]
            forcePasswordChange := "FALSE" }]) ∧
      (changePassword
          [{ row with
            passwordHash := hashPassword p5
            passwordHistory := [hashPassword p5, hashPassword p4, hashPassword p3,
              hashPassword p2, hashPassword p1]
            forcePasswordChange := "FALSE" }] u p5 p0).1 =
        ⟨true, "Password changed successfully"⟩) := by
  refine ⟨?_, ?_, ?_⟩
  · intro pre post row cur new hpre hcur hval hhist
    rw [changePassword, changeSearch_append _ _ _ _ _ _ hpre rfl,
      changeRow_history_reject _ _ _ hcur hval hhist]
  · intro pre post row cur new hpre hcur hval hhist
    refine ⟨changePassword_success_step _ _ _ _ _ _ hpre rfl hcur hval hhist, ?_⟩
    rw [List.length_take]
    exact min_le_left _ _
  · intro row u p0 p1 p2 p3 p4 p5 hu hph hh hv1 hv2 hv3 hv4 hv5 hv0 hdist
    simp only [List.pairwise_cons, List.mem_cons, List.not_mem_nil, or_false,
      forall_eq_or_imp, forall_eq] at hdist
    obtain ⟨⟨d01, d02, d03, d04, d05⟩, ⟨d12, d13, d14, d15⟩, ⟨d23, d24, d25⟩,
      ⟨d34, d35⟩, d45, -⟩ := hdist
    refine ⟨?_, ?_, ?_, ?_, ?_, ?_⟩
    · have h := changePassword_success_step [] [] row u p0 p1 (by simp) hu
        hph.symm hv1 (by rw [hh]; simp; exact hash_ne (Ne.symm d01))
      rw [hh] at h
      show changePassword ([] ++ row :: []) u p0 p1 = _
      rw [h]
      rfl
    · have h := changePassword_success_step [] []
        { row with
          passwordHash := hashPassword p1
          passwordHistory := [hashPassword p1, hashPassword p0]
          forcePasswordChange := "FALSE" } u p1 p2 (by simp) hu rfl hv2
        (by simp
            exact ⟨hash_ne (Ne.symm d12), hash_ne (Ne.symm d02)⟩)
      show changePassword ([] ++ _ :: []) u p1 p2 = _
      rw [h]
      rfl
    · have h := changePassword_success_step [] []
        { row with
          passwordHash := hashPassword p2
          passwordHistory := [hashPassword p2, hashPassword p1, hashPassword p0]
          forcePasswordChange := "FALSE" } u p2 p3 (by simp) hu rfl hv3
        (by simp
            exact ⟨hash_ne (Ne.symm d23), hash_ne (Ne.symm d13), hash_ne (Ne.symm d03)⟩)
      show changePassword ([] ++ _ :: []) u p2 p3 = _
      rw [h]
      rfl
    · have h := changePassword_success_step [] []
        { row with
          passwordHash := hashPassword p3
          passwordHistory := [hashPassword p3, hashPassword p2, hashPassword p1,
            hashPassword p0]
          forcePasswordChange := "FALSE" } u p3 p4 (by simp) hu rfl hv4
        (by simp
            exact ⟨hash_ne (Ne.symm d34), hash_ne (Ne.symm d24),
              hash_ne (Ne.symm d14), hash_ne (Ne.symm d04)⟩)
      show changePassword ([] ++ _ :: []) u p3 p4 = _
      rw [h]
      rfl
    · have h := changePassword_success_step [] []
        { row with
          passwordHash := hashPassword p4
          passwordHistory := [hashPassword p4, hashPassword p3, hashPassword p2,
            hashPassword p1, hashPassword p0]
          forcePasswordChange := "FALSE" } u p4 p5 (by simp) hu rfl hv5
        (by simp
            exact ⟨hash_ne (Ne.symm d45), hash_ne (Ne.symm d35),
              hash_ne (Ne.symm d25), hash_ne (Ne.symm d15), hash_ne (Ne.symm d05)⟩)
      show changePassword ([] ++ _ :: []) u p4 p5 = _
      rw [h]
      rfl
    · have h := changePassword_success_step [] []
        { row with
          passwordHash := hashPassword p5
          passwordHistory := [hashPassword p5, hashPassword p4, hashPassword p3,
            hashPassword p2, hashPassword p1]
          forcePasswordChange := "FALSE" } u p5 p0 (by simp) hu rfl hv0
        (by simp
            exact ⟨hash_ne d05, hash_ne d04, hash_ne d03, hash_ne d02, hash_ne d01⟩)
      show (changePassword ([] ++ _ :: []) u p5 p0).1 = _
      rw [h]

/-- Concrete C6 account fixture: history holds exactly the original
password's hash. -/
def eveRow : UserRow :=
  ⟨"USR004", "eve", hashPassword "Original1", "Eve E", "Viewer", "Active",
   "", 0, none, none, [hashPassword "Original1"], "FALSE"⟩

/-- Witness for C6: re-using the stored password is rejected, while a fresh
password is accepted and pushed onto the history. -/
theorem passwordHistory_policy_witness :
    changePassword ([] ++ eveRow :: []) eveRow.username "Original1" "Original1" =
      (⟨false, "Password was used recently. Please choose a different password."⟩,
       [] ++ eveRow :: []) ∧
    changePassword [eveRow] "eve" "Original1" "NewPass1A" =
      (⟨true, "Password changed successfully"⟩,
       [{ eveRow with
          passwordHash := hashPassword "NewPass1A"
          passwordHistory := [hashPassword "NewPass1A", hashPassword "Original1"]
          forcePasswordChange := "FALSE" }]) := by
  have ha := passwordHistory_policy.1 [] [] eveRow "Original1" "Original1"
    (by simp) rfl (by decide) (by simp [eveRow])
  have hc := passwordHistory_policy.2.2 eveRow "eve" "Original1" "NewPass1A"
    "SecondP2a" "ThirdPw3a" "FourthP4a" "FifthPw5a" rfl rfl rfl
    (by decide) (by decide) (by decide) (by decide) (by decide) (by decide)
    (by decide)
  exact ⟨ha, hc.1⟩

/-- C10: every successful `changePassword` call — whatever the prior value of
the force-password-change column — stores the new hash and history and writes
the text `'FALSE'` into the force-password-change column, clearing any
pending forced change. -/
theorem changePassword_clears_forcePasswordChange (pre post : List UserRow)
    (row : UserRow) (cur new : String)
    (hpre : ∀ r ∈ pre, r.username ≠ row.username)
    (hcur : hashPassword cur = row.passwordHash)
    (hval : validatePassword new = none)
    (hhist : hashPassword new ∉ row.passwordHistory) :
    (changePassword (pre ++ row :: post) row.username cur new).1 =
      ⟨true, "Password changed successfully"⟩ ∧
    (changePassword (pre ++ row :: post) row.username cur new).2 =
      pre ++ { row with
        passwordHash := hashPassword new
        passwordHistory := (hashPassword new :: row.passwordHistory).take
          PASSWORD_HISTORY_COUNT
        forcePasswordChange := "FALSE" } :: post := by
  have h := changePassword_success_step pre post row row.username cur new
    hpre rfl hcur hval hhist
  exact ⟨by rw [h], by rw [h]⟩

/-- Concrete C10 account fixture: an administrator has set the
force-password-change flag. -/
def frankRow : UserRow :=
  ⟨"USR005", "frank", hashPassword "FrankPw1", "Frank F", "Viewer", "Active",
   "", 0, none, none, [], "TRUE"⟩

/-- Witness for C10: a voluntary successful password change on an account
with a pending forced change clears the flag to `'FALSE'`. -/
theorem changePassword_clears_forcePasswordChange_witness :
    (changePassword ([] ++ frankRow :: []) frankRow.username "FrankPw1" "NewFrank1").1 =
      ⟨true, "Password changed successfully"⟩ ∧
    (changePassword ([] ++ frankRow :: []) frankRow.username "FrankPw1" "NewFrank1").2 =
      [] ++ { frankRow with
        passwordHash := hashPassword "NewFrank1"
        passwordHistory := (hashPassword "NewFrank1" :: frankRow.passwordHistory).take
          PASSWORD_HISTORY_COUNT
        forcePasswordChange := "FALSE" } :: [] :=
  changePassword_clears_forcePasswordChange [] [] frankRow "FrankPw1" "NewFrank1"
    (by simp) rfl (by decide) (by simp [frankRow])

/-- When no row matches the username, the scan returns the generic
anti-enumeration failure and changes nothing. -/
theorem authSearch_notfound (now : Nat) (su cu ni : String) (cache : Cache)
    (username password : String) (users : List UserRow)
    (h : ∀ r ∈ users, r.username ≠ username) :
    authSearch now su cu ni cache username password users =
      ⟨.failure "Invalid credentials", users, cache, 0⟩ := by
  induction users with
  | nil => simp [authSearch]
  | cons r t ih =>
    have hr : r.username ≠ username := h r (by simp)
    simp [authSearch, hr, ih (fun x hx => h x (by simp [hx]))]

/-- C8 counterexample: the claim says a validation failure is
indistinguishable (same message) from a wrong-password attempt on an
existing account; in fact an over-length username yields the bare
`'Invalid credentials'` while a wrong password on the existing account
`carol` yields `'Invalid credentials. 4 attempts remaining.'` — different
messages. -/
theorem validationFailure_message_differs_from_wrongPassword :
    (authenticateUser [carolRow] 0 "s" "c" "t" ⟨false, []⟩
       (some "aaaaaaaaaaaaaaaaaaaaaaaaaaaaaaaaaaaaaaaaaaaaaaaaaaa")
       (some "WrongPw1A")).result =
      .failure "Invalid credentials" ∧
    (authenticateUser [carolRow] 0 "s" "c" "t" ⟨false, []⟩
       (some "carol") (some "WrongPw1A")).result =
      .failure "Invalid credentials. 4 attempts remaining." ∧
    AuthResult.failure "Invalid credentials" ≠
      AuthResult.failure "Invalid credentials. 4 attempts remaining." := by
  refine ⟨by decide, by decide, by decide⟩

/-- C8 (amended): every malformed input — missing or non-string field
(modelled `none`), empty field, username over 50, password over 128 —
produces exactly the same outcome as an unknown-username attempt: the bare
`{success:false, message:'Invalid credentials'}` with no state change and no
hash call, so these cases are mutually indistinguishable (a wrong-password
attempt on an existing account, however, reports attempts remaining). -/
theorem invalidInput_indistinguishable_from_unknownUser (users : List UserRow)
    (now : Nat) (su cu ni : String) (cache : Cache) :
    (∀ passwordInput, authenticateUser users now su cu ni cache none passwordInput =
      ⟨.failure "Invalid credentials", users, cache, 0⟩) ∧
    (∀ usernameInput, authenticateUser users now su cu ni cache usernameInput none =
      ⟨.failure "Invalid credentials", users, cache, 0⟩) ∧
    (∀ u p : String, u = "" ∨ p = "" →
      authenticateUser users now su cu ni cache (some u) (some p) =
        ⟨.failure "Invalid credentials", users, cache, 0⟩) ∧
    (∀ u p : String, u.length > 50 ∨ p.length > 128 →
      authenticateUser users now su cu ni cache (some u) (some p) =
        ⟨.failure "Invalid credentials", users, cache, 0⟩) ∧
    (∀ u p : String, (∀ r ∈ users, r.username ≠ u) →
      authenticateUser users now su cu ni cache (some u) (some p) =
        ⟨.failure "Invalid credentials", users, cache, 0⟩) := by
  refine ⟨?_, ?_, ?_, ?_, ?_⟩
  · intro p?
    cases p? <;> rfl
  · intro u?
    cases u? <;> rfl
  · intro u p h
    simp only [authenticateUser]
    rw [if_pos h]
  · intro u p h
    by_cases h1 : u = "" ∨ p = ""
    · simp only [authenticateUser]
      rw [if_pos h1]
    · simp only [authenticateUser]
      rw [if_neg h1, if_pos h]
  · intro u p hu
    by_cases h1 : u = "" ∨ p = ""
    · simp only [authenticateUser]
      rw [if_pos h1]
    · by_cases h2 : u.length > 50 ∨ p.length > 128
      · simp only [authenticateUser]
        rw [if_neg h1, if_pos h2]
      · simp only [authenticateUser]
        rw [if_neg h1, if_neg h2,
          authSearch_notfound _ _ _ _ _ _ _ _ hu]

/-- Witness for the amended C8: the empty-username call and a call with an
unknown username on a concrete sheet return the identical outcome. -/
theorem invalidInput_indistinguishable_from_unknownUser_witness :
    authenticateUser [carolRow] 0 "s" "c" "t" ⟨false, []⟩ (some "") (some "WrongPw1A") =
      ⟨.failure "Invalid credentials", [carolRow], ⟨false, []⟩, 0⟩ ∧
    authenticateUser [carolRow] 0 "s" "c" "t" ⟨false, []⟩ (some "nobody") (some "WrongPw1A") =
      ⟨.failure "Invalid credentials", [carolRow], ⟨false, []⟩, 0⟩ := by
  have h := invalidInput_indistinguishable_from_unknownUser [carolRow] 0 "s" "c" "t"
    ⟨false, []⟩
  exact ⟨h.2.2.1 "" "WrongPw1A" (Or.inl rfl),
    h.2.2.2.2 "nobody" "WrongPw1A" (by decide)⟩

/-- The timestamp value of an activity (0 for a malformed one); used only to
state sortedness. -/
def tsv (a : Activity) : Nat := a.timestamp.getD 0

/-- On activities with valid timestamps the comparator is exactly
"descending by timestamp". -/
theorem actLe_iff_of_isSome {a b : Activity}
    (ha : a.timestamp.isSome = true) (hb : b.timestamp.isSome = true) :
    actLe a b ↔ tsv b ≤ tsv a := by
  obtain ⟨x, hx⟩ := Option.isSome_iff_exists.mp ha
  obtain ⟨y, hy⟩ := Option.isSome_iff_exists.mp hb
  simp [actLe, tsv, hx, hy]

/-- Inserting a valid-timestamp activity into a descending list of
valid-timestamp activities keeps it descending. -/
theorem pairwise_orderedInsert_actLe (a : Activity) (l : List Activity)
    (ha : a.timestamp.isSome = true) (hl : ∀ x ∈ l, x.timestamp.isSome = true)
    (h : List.Pairwise (fun x y => tsv y ≤ tsv x) l) :
    List.Pairwise (fun x y => tsv y ≤ tsv x) (List.orderedInsert actLe a l) := by
  induction l with
  | nil => simp
  | cons b t ih =>
    have hb : b.timestamp.isSome = true := hl b (by simp)
    have hpc := List.pairwise_cons.mp h
    simp only [List.orderedInsert]
    split
    case isTrue hab =>
      have hba : tsv b ≤ tsv a := (actLe_iff_of_isSome ha hb).mp hab
      refine List.pairwise_cons.mpr ⟨?_, h⟩
      intro x hx
      rcases List.mem_cons.mp hx with rfl | hx
      · exact hba
      · exact le_trans (hpc.1 x hx) hba
    case isFalse hab =>
      have hba : tsv a ≤ tsv b := by
        have := (actLe_iff_of_isSome ha hb).not.mp hab
        omega
      refine List.pairwise_cons.mpr ⟨?_, ?_⟩
      · intro x hx
        rcases (List.mem_orderedInsert actLe).mp hx with rfl | hx
        · exact hba
        · exact hpc.1 x hx
      · exact ih (fun x hx => hl x (by simp [hx])) hpc.2

/-- The insertion sort used by `getRecentActivity` yields a descending list
whenever every timestamp is valid. -/
theorem pairwise_insertionSort_actLe (l : List Activity)
    (hl : ∀ x ∈ l, x.timestamp.isSome = true) :
    List.Pairwise (fun x y => tsv y ≤ tsv x) (List.insertionSort actLe l) := by
  induction l with
  | nil => simp
  | cons a t ih =>
    simp only [List.insertionSort]
    apply pairwise_orderedInsert_actLe
    · exact hl a (by simp)
    · intro x hx
      exact hl x (by
        have := (List.perm_insertionSort actLe t).mem_iff.mp hx
        simp [this])
    · exact ih (fun x hx => hl x (by simp [hx]))

/-- Five sequential `logAudit` appends with increasing timestamps, used to
instantiate the audit query contract. -/
def auditSheet5 : List AuditRow :=
  logAudit (logAudit (logAudit (logAudit (logAudit []
    "A1" 100 "u1" "Login" "User" "alice" "")
    "A2" 200 "u2" "Add" "Guard" "g1" "")
    "A3" 300 "u3" "Update" "Guard" "g1" "")
    "A4" 400 "u4" "Delete" "Guard" "g2" "")
    "A5" 500 "u5" "Login" "User" "bob" ""

/-- C9 counterexample: an entirely empty data row is not skipped — it is
returned as an activity whose fields default to the empty string, so the
result has length 1 where the claim's "skipping malformed/empty rows" would
require length 0. -/
theorem getRecentActivity_includes_empty_row :
    getRecentActivity [⟨"", none, "", "", "", "", ""⟩] none =
      [toActivity ⟨"", none, "", "", "", "", ""⟩] ∧
    (getRecentActivity [⟨"", none, "", "", "", "", ""⟩] none).length = 1 := by
  exact ⟨rfl, rfl⟩

/-- C9 (amended): `getRecentActivity` converts every data row to an activity
(malformed/empty rows are included with fields defaulted, not skipped: the
sorted list is a permutation of all converted rows); on sheets whose
timestamps are all valid the result is sorted by timestamp descending; it is
truncated to `limit` entries, a missing — or zero, which is falsy — limit
meaning 10; and after the five sequential `logAudit` appends of
`auditSheet5`, `getRecentActivity (some 3)` returns exactly the three most
recent events newest-first. -/
theorem getRecentActivity_sorted_truncated (sheet : List AuditRow)
    (limit : Option Nat) :
    ((∀ r ∈ sheet, r.timestamp.isSome = true) →
      List.Pairwise (fun x y => tsv y ≤ tsv x) (getRecentActivity sheet limit)) ∧
    (getRecentActivity sheet limit).length ≤
      (match limit with | some n => if n = 0 then 10 else n | none => 10) ∧
    List.Perm (List.insertionSort actLe (sheet.map toActivity)) (sheet.map toActivity) ∧
    getRecentActivity auditSheet5 (some 3) =
      [toActivity ⟨"A5", some 500, "u5", "Login", "User", "bob", ""⟩,
       toActivity ⟨"A4", some 400, "u4", "Delete", "Guard", "g2", ""⟩,
       toActivity ⟨"A3", some 300, "u3", "Update", "Guard", "g1", ""⟩] := by
  refine ⟨?_, ?_, List.perm_insertionSort actLe _, by decide⟩
  · intro hv
    by_cases hs : sheet.isEmpty
    · simp [getRecentActivity, hs]
    · simp only [getRecentActivity]
      rw [if_neg hs]
      apply List.Pairwise.sublist (List.take_sublist _ _)
      apply pairwise_insertionSort_actLe
      intro x hx
      obtain ⟨r, hr, hrx⟩ := List.mem_map.mp hx
      have := hv r hr
      rw [← hrx]
      exact this
  · by_cases hs : sheet.isEmpty
    · simp [getRecentActivity, hs]
    · simp only [getRecentActivity]
      rw [if_neg hs, List.length_take]
      exact min_le_left _ _

/-- Witness for the amended C9: the sortedness clause instantiated on the
concrete five-event sheet. -/
theorem getRecentActivity_sorted_truncated_witness :
    (∀ r ∈ auditSheet5, r.timestamp.isSome = true) ∧
    List.Pairwise (fun x y => tsv y ≤ tsv x) (getRecentActivity auditSheet5 (some 3)) :=
  ⟨by decide, (getRecentActivity_sorted_truncated auditSheet5 (some 3)).1 (by decide)⟩
